import Mathlib

/-
Shallow embedding of the panda Discord client.

Source files embedded:
  * src/src/client/mod.rs     — Client, its receive loop (Client::start),
    the reconnect protocol (reconnect / clean_connect / resume_connect /
    spawn_heartbeater);
  * src/src/client/session.rs — Session (session id, resumable flag) and the
    HTTP request methods with their rate-limit bucket keys.

Rust machine strings are Lean `String`s.  The stateful receive loop becomes a
step function `stepEvent : Client → Trace → Event → Except DiscordError
(Client × Trace)` where `Trace` records the observable effects (commands
pushed onto the outbound gateway channel, payloads handed to the event
router, heartbeat tasks spawned).  The modules `gateway`, `http`, `error`,
`config` and `models/gateway/commands` of the repository are not under src/;
the few definitions taken from them are modelled from the spec and marked as
such in their doc comments.
-/

namespace Panda

/-- Modelled from the spec: the error taxonomy of §7 (the `error` module of
the repository is not under src/).  The client code in src/ only ever
distinguishes `authenticationFailed` from the rest. -/
inductive DiscordError
  | authenticationFailed
  | connectFailed
  | transportError
  | rateLimited
  | decodeError
  deriving DecidableEq, Repr

/-- Dispatch payload kinds as the coordinator sees them.  `ready` carries the
session id, the only field the coordinator inspects (mod.rs lines 94-104).
All the explicitly matched non-Ready kinds (ChannelCreate … UserUpdate,
mod.rs lines 106-192) behave identically — spawn the registered handler and
nothing else — and are collapsed into `other` with their kind tag; the final
`_ => {}` arm (mod.rs line 193) is `ignored`. -/
inductive DispatchEvent
  | ready (session_id : String)
  | other (kind : String)
  | ignored (kind : String)
  deriving DecidableEq, Repr

/-- Inbound gateway events (`Event` of models/gateway/events, as consumed by
the receive loop of mod.rs lines 92-217). -/
inductive Event
  | dispatch (d : DispatchEvent)
  | reconnect
  | invalidSession (resumable : Bool)
  | heartbeatACK
  | close (e : DiscordError)
  | unhandled (kind : String)
  deriving DecidableEq, Repr

/-- True exactly on `Event.close` events. -/
def Event.isClose : Event → Bool
  | .close _ => true
  | _ => false

/-- Modelled from the spec: the outbound `Command` variants of §3 and §6 (the
models/gateway/commands module is not under src/).  `identify` carries the
token, the large-guild threshold, the guild-subscriptions flag and the shard
pair; `resume` carries token, session id and the nullable last sequence. -/
inductive Command
  | identify (token : String) (large_treshold : Nat) (guilds_subscriptions : Bool)
      (shard : Nat × Nat)
  | resume (token : String) (session_id : String) (last_sequence : Option Nat)
  | heartbeat (last_sequence : Option Nat)
  deriving DecidableEq, Repr

/-- `Session` of session.rs lines 19-27.  The `Mutex` around `id` and the
`AtomicBool` around `is_resumable` are concurrency wrappers; the embedding
keeps the protected values.  `http_token` is the token handed to
`HttpClient::new` (session.rs line 33; the http module is not under src/). -/
structure Session where
  id : String
  http_token : String
  state : Unit
  is_resumable : Bool
  deriving DecidableEq, Repr

/-- `Session::new` (session.rs lines 30-37). -/
def Session.new (token : String) : Session :=
  { id := "", http_token := token, state := (), is_resumable := true }

/-- `Session::set_resumable` (session.rs lines 40-42). -/
def Session.set_resumable (s : Session) (b : Bool) : Session :=
  { s with is_resumable := b }

/-- `Session::set_id` (session.rs lines 50-53). -/
def Session.set_id (s : Session) (i : String) : Session :=
  { s with id := i }

/-- Modelled from the spec: the client `Config` (the config module of the
repository is not under src/).  mod.rs uses exactly these four fields to
build the Identify command (lines 250-256); the default values are
placeholders, no claim depends on them. -/
structure Config where
  gateway_shard_id : Nat
  gateway_num_shards : Nat
  gateway_large_treshold : Nat
  gateway_guilds_subscriptions : Bool
  deriving DecidableEq, Repr

/-- Modelled from the spec: `Config::new_default` (config module absent). -/
def Config.new_default : Config :=
  { gateway_shard_id := 0, gateway_num_shards := 1,
    gateway_large_treshold := 250, gateway_guilds_subscriptions := true }

/-- Modelled from the spec: `GatewayConnection` (§4.2; the gateway module of
the repository is not under src/).  `gen` numbers the connection/channel
generations (one per transport connection), `channelsOpen` says whether the
current generation's channel pair is open, and `lastSeq` is the last
observed sequence number, which `reconnect()` returns to the caller. -/
structure GatewayConnection where
  gen : Nat
  channelsOpen : Bool
  lastSeq : Option Nat
  deriving DecidableEq, Repr

/-- Modelled from the spec: a fresh gateway connection (generation 0). -/
def GatewayConnection.new : GatewayConnection :=
  { gen := 0, channelsOpen := true, lastSeq := none }

/-- Modelled from the spec: `close_channels` closes both channels of the
current generation (§4.2), unblocking and thereby terminating every task
reading or writing them. -/
def GatewayConnection.close_channels (g : GatewayConnection) : GatewayConnection :=
  { g with channelsOpen := false }

/-- Modelled from the spec: `GatewayConnection::reconnect` tears the old
transport down, opens a new one (a fresh channel generation) and returns the
last observed sequence number known before teardown (§4.2). -/
def GatewayConnection.reconnect_gw (g : GatewayConnection) :
    Option Nat × GatewayConnection :=
  (g.lastSeq, { gen := g.gen + 1, channelsOpen := true, lastSeq := g.lastSeq })

/-- Modelled from the spec: inbound decoding attaches a sequence number to
every dispatch frame (§6) and the gateway records the last observed sequence
(§3, §4.2) — the gateway module is not under src/. -/
def GatewayConnection.observe_seq (g : GatewayConnection) (s : Nat) :
    GatewayConnection :=
  { g with lastSeq := some s }

/-- Modelled from the spec: the gateway's sequence tracking folded over the
sequence numbers of a run of inbound dispatch frames. -/
def GatewayConnection.observe_all (g : GatewayConnection) (seqs : List Nat) :
    GatewayConnection :=
  seqs.foldl GatewayConnection.observe_seq g

/-- `Client` of mod.rs lines 51-58 (the `handler` registration table holds
application callbacks only and never influences the coordinator state; it is
not part of the embedded state). -/
structure Client where
  config : Config
  token : String
  session : Session
  gateway : GatewayConnection
  deriving DecidableEq, Repr

/-- Rust `str::starts_with`: the pattern is a prefix of the string's
character sequence. -/
def starts_with (s pat : String) : Bool :=
  pat.toList.isPrefixOf s.toList

/-- `Client::new` (mod.rs lines 62-79): prepend "Bot " to the token unless it
is already there, then share the normalized token between the client and the
session's HTTP client. -/
def Client.new (token : String) : Client :=
  let token := if starts_with token "Bot " then token else "Bot " ++ token
  { config := Config.new_default, token := token,
    session := Session.new token, gateway := GatewayConnection.new }

/-- The observable effects of a run of the receive loop, newest first:
`sent` — commands pushed onto the outbound gateway channel; `routed` — the
(session id visible to the spawned handler, payload) pairs handed to the
event router by `handle_event!`; `hbSpawned` — (channel generation,
heartbeat interval) of every heartbeat task ever spawned. -/
structure Trace where
  sent : List Command
  routed : List (String × DispatchEvent)
  hbSpawned : List (Nat × Nat)
  deriving DecidableEq, Repr

/-- The empty trace. -/
def Trace.empty : Trace :=
  { sent := [], routed := [], hbSpawned := [] }

/-- `Client::spawn_heartbeater` (mod.rs lines 288-296): spawn a heartbeat
task bound to the current connection's heartbeat interval and a clone of the
current outbound channel.  The interval is renegotiated on every reconnect;
`ivl g` is the interval of connection generation `g`. -/
def spawn_heartbeater (ivl : Nat → Nat) (c : Client) (t : Trace) : Trace :=
  { t with hbSpawned := (c.gateway.gen, ivl c.gateway.gen) :: t.hbSpawned }

/-- `Client::clean_connect` (mod.rs lines 248-267): build the Identify
command from the config and the token, send it, then spawn a heartbeater. -/
def clean_connect (ivl : Nat → Nat) (c : Client) (t : Trace) : Trace :=
  let shard := (c.config.gateway_shard_id, c.config.gateway_num_shards)
  let identify := Command.identify c.token c.config.gateway_large_treshold
    c.config.gateway_guilds_subscriptions shard
  spawn_heartbeater ivl c { t with sent := identify :: t.sent }

/-- `Client::resume_connect` (mod.rs lines 269-284): build the Resume command
from the token, the session id and the given last sequence, send it, then
spawn a heartbeater. -/
def resume_connect (ivl : Nat → Nat) (c : Client) (t : Trace)
    (last_sequence : Option Nat) : Trace :=
  let resume := Command.resume c.token c.session.id last_sequence
  spawn_heartbeater ivl c { t with sent := resume :: t.sent }

/-- `Client::reconnect` (mod.rs lines 225-246): close the old generation's
channels, reconnect the gateway obtaining the last sequence, then resume if
the session is resumable, otherwise identify and set the flag back. -/
def reconnect (ivl : Nat → Nat) (c : Client) (t : Trace) : Client × Trace :=
  let c := { c with gateway := c.gateway.close_channels }
  let (last_sequence, gw) := c.gateway.reconnect_gw
  let c := { c with gateway := gw }
  if c.session.is_resumable then
    (c, resume_connect ivl c t last_sequence)
  else
    let t := clean_connect ivl c t
    ({ c with session := c.session.set_resumable true }, t)

/-- One iteration of the receive loop of `Client::start` (mod.rs lines
92-217).  `Except.error` is the loop's early `return Err(e)`. -/
def stepEvent (ivl : Nat → Nat) (c : Client) (t : Trace) (e : Event) :
    Except DiscordError (Client × Trace) :=
  match e with
  | .dispatch (.ready sid) =>
    let c := { c with session := c.session.set_id sid }
    .ok (c, { t with routed := (c.session.id, .ready sid) :: t.routed })
  | .dispatch (.other k) =>
    .ok (c, { t with routed := (c.session.id, .other k) :: t.routed })
  | .dispatch (.ignored _) => .ok (c, t)
  | .reconnect => .ok (c, t)
  | .invalidSession r =>
    .ok ({ c with session := c.session.set_resumable r }, t)
  | .heartbeatACK => .ok (c, t)
  | .close err =>
    match err with
    | .authenticationFailed => .error err
    | _ => .ok (reconnect ivl c t)
  | .unhandled _ => .ok (c, t)

/-- The receive loop folded over a finite run of inbound events. -/
def runEvents (ivl : Nat → Nat) : Client → Trace → List Event →
    Except DiscordError (Client × Trace)
  | c, t, [] => .ok (c, t)
  | c, t, e :: es =>
    match stepEvent ivl c t e with
    | .error err => .error err
    | .ok (c, t) => runEvents ivl c t es

/-- `Client::start` (mod.rs lines 85-222): send Identify and spawn the first
heartbeater, then run the receive loop. -/
def Client.start (ivl : Nat → Nat) (c : Client) (es : List Event) :
    Except DiscordError (Client × Trace) :=
  runEvents ivl c (clean_connect ivl c Trace.empty) es

/-- The heartbeat tasks still active: a heartbeater exits when the channel it
holds is closed (doc comment of spawn_heartbeater, mod.rs lines 286-287), so
the active tasks are the spawned ones bound to the currently open channel
generation. -/
def activeHeartbeats (c : Client) (t : Trace) : List (Nat × Nat) :=
  if c.gateway.channelsOpen then
    t.hbSpawned.filter (fun p => p.1 == c.gateway.gen)
  else []

/-- Modelled from the spec: the fixed REST base URL (§6; the http module of
the repository is not under src/).  Its value enters the request URIs only,
never the bucket keys. -/
def DISCORD_URL : String := "https://discord.com/api/v6"

/-- One uppercase hexadecimal digit (session.rs line 518 formats bytes with
the `%{:02X}` pattern): 48 is the code of the digit 0, 55 + 10 that of A. -/
def hex_digit (n : Nat) : Char :=
  if n < 10 then Char.ofNat (48 + n) else Char.ofNat (55 + n)

/-- The percent-encoding of one byte, `%` then two uppercase hex digits. -/
def encode_byte (n : Nat) : String :=
  String.mk ['%', hex_digit (n / 16 % 16), hex_digit (n % 16)]

/-- `encode` (session.rs lines 510-522): percent-encode every byte of the
UTF-8 string except the accepted characters A-Z (codes 65-90), a-z (97-122),
0-9 (48-57), `-` (45), `_` (95), `.` (46) and `~` (126). -/
def encode (data : String) : String :=
  data.toUTF8.toList.foldl (fun escaped b =>
    let n := b.toNat
    if (65 ≤ n ∧ n ≤ 90) ∨ (97 ≤ n ∧ n ≤ 122) ∨ (48 ≤ n ∧ n ≤ 57) ∨
        n = 45 ∨ n = 95 ∨ n = 46 ∨ n = 126 then
      escaped.push (Char.ofNat n)
    else
      escaped ++ encode_byte n) ""

/-
The Session HTTP request methods (session.rs lines 65-507).  Each method
formats a request URI and a rate-limit bucket key and hands both to the
HttpClient (not under src/); the embedding returns the (uri, rate-limit key)
pair.  Request bodies never enter the URI or the key and are kept as unused
`_`-parameters.
-/

/-- `Session::get_channel` (session.rs lines 68-79). -/
def get_channel (channel_id : String) : String × String :=
  (DISCORD_URL ++ "/channels/" ++ channel_id, "channels:" ++ channel_id)

/-- `Session::edit_channel` (session.rs lines 88-100). -/
def edit_channel (channel_id : String) (_body : String) : String × String :=
  (DISCORD_URL ++ "/channels/" ++ channel_id, "channels:" ++ channel_id)

/-- `Session::delete_channel` (session.rs lines 108-119). -/
def delete_channel (channel_id : String) : String × String :=
  (DISCORD_URL ++ "/channels/" ++ channel_id, "channels:" ++ channel_id)

/-- `Session::get_messages_around` (session.rs lines 125-147). -/
def get_messages_around (channel_id msg_id : String) (limit : Nat) :
    String × String :=
  (DISCORD_URL ++ "/channels/" ++ channel_id ++ "/messages?around=" ++ msg_id
      ++ "&limit=" ++ toString limit,
    "channels:" ++ channel_id)

/-- `Session::get_messages_before` (session.rs lines 153-174). -/
def get_messages_before (channel_id msg_id : String) (limit : Nat) :
    String × String :=
  (DISCORD_URL ++ "/channels/" ++ channel_id ++ "/messages?before=" ++ msg_id
      ++ "&limit=" ++ toString limit,
    "channels:" ++ channel_id)

/-- `Session::get_messages_after` (session.rs lines 180-201). -/
def get_messages_after (channel_id msg_id : String) (limit : Nat) :
    String × String :=
  (DISCORD_URL ++ "/channels/" ++ channel_id ++ "/messages?after=" ++ msg_id
      ++ "&limit=" ++ toString limit,
    "channels:" ++ channel_id)

/-- `Session::get_message` (session.rs lines 207-221; the source URI really
says "/channel/", without the s). -/
def get_message (channel_id msg_id : String) : String × String :=
  (DISCORD_URL ++ "/channel/" ++ channel_id ++ "/messages/" ++ msg_id,
    "channels:" ++ channel_id)

/-- `Session::send_message` (session.rs lines 228-245). -/
def send_message (channel_id : String) (_content : String) : String × String :=
  (DISCORD_URL ++ "/channels/" ++ channel_id ++ "/messages",
    "channels:" ++ channel_id)

/-- `Session::add_reaction` (session.rs lines 251-275). -/
def add_reaction (channel_id message_id emoji : String) : String × String :=
  let emoji := encode emoji
  (DISCORD_URL ++ "/channels/" ++ channel_id ++ "/messages/" ++ message_id
      ++ "/reactions/" ++ emoji ++ "/@me",
    "channel:" ++ channel_id ++ ":emoji")

/-- `Session::remove_own_reaction` (session.rs lines 281-305). -/
def remove_own_reaction (channel_id message_id emoji : String) :
    String × String :=
  let emoji := encode emoji
  (DISCORD_URL ++ "/channels/" ++ channel_id ++ "/messages/" ++ message_id
      ++ "/reactions/" ++ emoji ++ "/@me",
    "channel:" ++ channel_id ++ ":emoji")

/-- `Session::remove_user_reaction` (session.rs lines 313-339). -/
def remove_user_reaction (channel_id message_id user emoji : String) :
    String × String :=
  let emoji := encode emoji
  (DISCORD_URL ++ "/channels/" ++ channel_id ++ "/messages/" ++ message_id
      ++ "/reactions/" ++ emoji ++ "/" ++ user,
    "channel:" ++ channel_id ++ ":emoji")

/-- `Session::get_reactions` (session.rs lines 347-371). -/
def get_reactions (channel_id message_id emoji : String) : String × String :=
  let emoji := encode emoji
  (DISCORD_URL ++ "/channels/" ++ channel_id ++ "/messages/" ++ message_id
      ++ "/reactions/" ++ emoji,
    "channel:" ++ channel_id ++ ":emoji")

/-- `Session::remove_all_reactions` (session.rs lines 378-393). -/
def remove_all_reactions (channel_id message_id : String) : String × String :=
  (DISCORD_URL ++ "/channels/" ++ channel_id ++ "/messages/" ++ message_id
      ++ "/reactions",
    "channel:" ++ channel_id ++ ":emoji")

/-- `Session::remove_all_emoji_reactions` (session.rs lines 401-423). -/
def remove_all_emoji_reactions (channel_id message_id emoji : String) :
    String × String :=
  let emoji := encode emoji
  (DISCORD_URL ++ "/channels/" ++ channel_id ++ "/messages/" ++ message_id
      ++ "/reactions/" ++ emoji,
    "channel:" ++ channel_id ++ ":emoji")

/-- `Session::edit_message` (session.rs lines 430-448; the source URI has no
message id, flagged TODO there). -/
def edit_message (channel_id : String) (_content : String) : String × String :=
  (DISCORD_URL ++ "/channels/" ++ channel_id ++ "/messages",
    "channels:" ++ channel_id)

/-- `Session::delete_message` (session.rs lines 454-470). -/
def delete_message (channel_id message_id : String) : String × String :=
  (DISCORD_URL ++ "/channels/" ++ channel_id ++ "/messages/" ++ message_id,
    "channels:" ++ channel_id)

/-- `Session::delete_many_messages` (session.rs lines 476-489). -/
def delete_many_messages (channel_id : String) (_messages : List String) :
    String × String :=
  (DISCORD_URL ++ "/channels/" ++ channel_id ++ "/messages/bulk-delete",
    "channels:" ++ channel_id)

/-- `Session::edit_channel_permissions` (session.rs lines 496-506). -/
def edit_channel_permissions (channel_id : String) : String × String :=
  (DISCORD_URL ++ "/channels/" ++ channel_id ++ "/permissions/" ++ "",
    "channels:" ++ channel_id)

/-- The heartbeat bookkeeping invariant of the receive loop: the current
channel generation is open, exactly one spawned heartbeat task is bound to
it (carrying that generation's interval), and no spawned task is bound to a
generation newer than the current one. -/
def hbInv (ivl : Nat → Nat) (c : Client) (t : Trace) : Prop :=
  c.gateway.channelsOpen = true ∧
  t.hbSpawned.filter (fun p => p.1 == c.gateway.gen) =
    [(c.gateway.gen, ivl c.gateway.gen)] ∧
  ∀ p ∈ t.hbSpawned, p.1 ≤ c.gateway.gen

/-
Theorems.
-/

/-- Claim C6: a Dispatch carrying the "ready" payload writes the payload's
session id into the session before the payload is handed to the spawned
handler (the router trace records the session id visible at spawn time,
which is the new one), and the session id starts as the empty string. -/
theorem ready_persists_session_id (ivl : Nat → Nat) (c : Client) (t : Trace)
    (tok sid : String) :
    (Session.new tok).id = "" ∧
    stepEvent ivl c t (Event.dispatch (DispatchEvent.ready sid)) =
      Except.ok ({ c with session := c.session.set_id sid },
        { t with routed := (sid, DispatchEvent.ready sid) :: t.routed }) ∧
    ({ c with session := c.session.set_id sid }).session.id = sid :=
  ⟨rfl, rfl, rfl⟩

/-- Claim C2: when the session is resumable, a recoverable Connection-Closed
makes the coordinator send Resume carrying the token, the current session
id and the last sequence returned by the gateway reconnect (the sequence
known before teardown), and spawn a heartbeater on the new generation. -/
theorem resumable_reconnect_sends_resume (ivl : Nat → Nat) (c : Client)
    (t : Trace) (err : DiscordError)
    (hres : c.session.is_resumable = true)
    (herr : err ≠ DiscordError.authenticationFailed) :
    ∃ c' t', stepEvent ivl c t (Event.close err) = Except.ok (c', t') ∧
      t'.sent = Command.resume c.token c.session.id c.gateway.lastSeq :: t.sent ∧
      t'.hbSpawned = (c.gateway.gen + 1, ivl (c.gateway.gen + 1)) :: t.hbSpawned := by
  have hstep : stepEvent ivl c t (Event.close err) =
      Except.ok (reconnect ivl c t) := by
    cases err with
    | authenticationFailed => exact absurd rfl herr
    | connectFailed => rfl
    | transportError => rfl
    | rateLimited => rfl
    | decodeError => rfl
  refine ⟨(reconnect ivl c t).1, (reconnect ivl c t).2, by rw [hstep], ?_, ?_⟩ <;>
    simp [reconnect, GatewayConnection.close_channels, GatewayConnection.reconnect_gw,
      resume_connect, spawn_heartbeater, hres]

/-- Claim C3: a Connection-Closed classified as AuthenticationFailed makes
the receive loop return that error with nothing following it (the whole
remaining run is discarded); every other close reason is absorbed and runs
the reconnect protocol (a reconnect command is sent) instead of returning. -/
theorem auth_failure_terminates_loop (ivl : Nat → Nat) (c : Client) (t : Trace)
    (err : DiscordError) (es : List Event) :
    runEvents ivl c t (Event.close DiscordError.authenticationFailed :: es) =
      Except.error DiscordError.authenticationFailed ∧
    (err ≠ DiscordError.authenticationFailed →
      ∃ c' t' cmd, stepEvent ivl c t (Event.close err) = Except.ok (c', t') ∧
        t'.sent = cmd :: t.sent) := by
  constructor
  · simp [runEvents, stepEvent]
  · intro herr
    have hstep : stepEvent ivl c t (Event.close err) =
        Except.ok (reconnect ivl c t) := by
      cases err with
      | authenticationFailed => exact absurd rfl herr
      | connectFailed => rfl
      | transportError => rfl
      | rateLimited => rfl
      | decodeError => rfl
    by_cases hr : c.session.is_resumable = true
    · refine ⟨(reconnect ivl c t).1, (reconnect ivl c t).2,
        Command.resume c.token c.session.id c.gateway.lastSeq,
        by rw [hstep], ?_⟩
      simp [reconnect, GatewayConnection.close_channels,
        GatewayConnection.reconnect_gw, resume_connect, spawn_heartbeater, hr]
    · refine ⟨(reconnect ivl c t).1, (reconnect ivl c t).2,
        Command.identify c.token c.config.gateway_large_treshold
          c.config.gateway_guilds_subscriptions
          (c.config.gateway_shard_id, c.config.gateway_num_shards),
        by rw [hstep], ?_⟩
      simp [reconnect, GatewayConnection.close_channels,
        GatewayConnection.reconnect_gw, clean_connect, spawn_heartbeater, hr]

/-- Witness for C2 at the freshly created client, which is resumable. -/
theorem resumable_reconnect_sends_resume_witness :
    (Client.new "x").session.is_resumable = true ∧
    DiscordError.transportError ≠ DiscordError.authenticationFailed ∧
    ∃ c' t', stepEvent (fun _ => 41250) (Client.new "x") Trace.empty
        (Event.close DiscordError.transportError) = Except.ok (c', t') ∧
      t'.sent = Command.resume (Client.new "x").token (Client.new "x").session.id
        (Client.new "x").gateway.lastSeq :: Trace.empty.sent ∧
      t'.hbSpawned = ((Client.new "x").gateway.gen + 1,
        (fun _ => 41250) ((Client.new "x").gateway.gen + 1)) ::
          Trace.empty.hbSpawned :=
  ⟨by decide, by decide,
    resumable_reconnect_sends_resume (fun _ => 41250) (Client.new "x")
      Trace.empty DiscordError.transportError (by decide) (by decide)⟩

/-- Witness for C3: the auth-failed close errors out of a concrete run, and a
concrete recoverable close is absorbed with a command sent. -/
theorem auth_failure_terminates_loop_witness :
    runEvents (fun _ => 41250) (Client.new "x") Trace.empty
      (Event.close DiscordError.authenticationFailed :: [Event.heartbeatACK]) =
      Except.error DiscordError.authenticationFailed ∧
    ∃ c' t' cmd, stepEvent (fun _ => 41250) (Client.new "x") Trace.empty
        (Event.close DiscordError.transportError) = Except.ok (c', t') ∧
      t'.sent = cmd :: Trace.empty.sent :=
  ⟨(auth_failure_terminates_loop (fun _ => 41250) (Client.new "x") Trace.empty
      DiscordError.transportError [Event.heartbeatACK]).1,
    (auth_failure_terminates_loop (fun _ => 41250) (Client.new "x") Trace.empty
      DiscordError.transportError [Event.heartbeatACK]).2 (by decide)⟩

/-- Claim C9: a Reconnect-Requested event is only logged: the step returns
the state completely unchanged; and no event other than a Connection-Closed
ever sends a command or touches the gateway connection, so reconnection is
only ever triggered by connection closure. -/
theorem reconnect_event_is_noop (ivl : Nat → Nat) (c : Client) (t : Trace) :
    stepEvent ivl c t Event.reconnect = Except.ok (c, t) ∧
    (∀ e c' t', e.isClose = false →
      stepEvent ivl c t e = Except.ok (c', t') →
      t'.sent = t.sent ∧ c'.gateway = c.gateway) := by
  refine ⟨rfl, ?_⟩
  intro e c' t' hcl hstep
  cases e with
  | dispatch d =>
    cases d <;> simp [stepEvent] at hstep <;>
      obtain ⟨rfl, rfl⟩ := hstep <;> exact ⟨rfl, rfl⟩
  | reconnect =>
    simp [stepEvent] at hstep
    obtain ⟨rfl, rfl⟩ := hstep
    exact ⟨rfl, rfl⟩
  | invalidSession r =>
    simp [stepEvent] at hstep
    obtain ⟨rfl, rfl⟩ := hstep
    exact ⟨rfl, rfl⟩
  | heartbeatACK =>
    simp [stepEvent] at hstep
    obtain ⟨rfl, rfl⟩ := hstep
    exact ⟨rfl, rfl⟩
  | close err => simp [Event.isClose] at hcl
  | unhandled k =>
    simp [stepEvent] at hstep
    obtain ⟨rfl, rfl⟩ := hstep
    exact ⟨rfl, rfl⟩

/-- Witness for C9 at a concrete state and a concrete non-close event. -/
theorem reconnect_event_is_noop_witness :
    Event.isClose Event.heartbeatACK = false ∧
    stepEvent (fun _ => 41250) (Client.new "x") Trace.empty Event.heartbeatACK =
      Except.ok (Client.new "x", Trace.empty) ∧
    Trace.empty.sent = Trace.empty.sent ∧
    (Client.new "x").gateway = (Client.new "x").gateway :=
  ⟨by decide, rfl,
    (reconnect_event_is_noop (fun _ => 41250) (Client.new "x") Trace.empty).2
      Event.heartbeatACK (Client.new "x") Trace.empty (by decide) rfl⟩

/-- Claim C10: the stored token always begins with "Bot ": kept unchanged
when the input already has the prefix, prepended exactly once otherwise; the
session's HTTP client receives the same normalized token. -/
theorem token_bot_normalization (token : String) :
    starts_with (Client.new token).token "Bot " = true ∧
    (starts_with token "Bot " = true → (Client.new token).token = token) ∧
    (starts_with token "Bot " = false →
      (Client.new token).token = "Bot " ++ token) ∧
    (Client.new token).session.http_token = (Client.new token).token := by
  by_cases h : starts_with token "Bot " = true
  · refine ⟨?_, fun _ => ?_, fun hf => absurd h (by simp [hf]), rfl⟩ <;>
      simp [Client.new, h]
  · have hf : starts_with token "Bot " = false := by
      cases hb : starts_with token "Bot " with
      | true => exact absurd hb h
      | false => rfl
    have hpre : starts_with ("Bot " ++ token) "Bot " = true := by
      have htl : ("Bot " ++ token).toList = "Bot ".toList ++ token.toList := by
        simp [String.toList]
      rw [starts_with, htl, List.isPrefixOf_iff_prefix]
      exact List.prefix_append _ _
    refine ⟨?_, fun ht => absurd ht h, fun _ => ?_, rfl⟩ <;>
      simp [Client.new, hf, hpre]

/-- Witness for C10 on a token without the prefix. -/
theorem token_bot_normalization_witness :
    starts_with "abc" "Bot " = false ∧
    (Client.new "abc").token = "Bot " ++ "abc" :=
  ⟨by decide, (token_bot_normalization "abc").2.2.1 (by decide)⟩

/-- Counterexample for claim C8: two Session operations addressing the same
channel ("42") use different rate-limit bucket keys — send_message builds
"channels:42" while add_reaction builds "channel:42:emoji". -/
theorem bucket_keys_differ_counterexample :
    (send_message "42" "hi").2 ≠ (add_reaction "42" "7" "x").2 := by decide

/-- Claim C8 as amended: every Session request operation on a channel
derives its bucket key from the channel identifier alone (message ids,
emoji, bodies and limits never enter the key), but the operations fall into
two distinct bucket families per channel rather than one: the channel and
message operations use "channels:{id}" while the reaction operations use
"channel:{id}:emoji", and these two keys never coincide. -/
theorem bucket_keys_channel_only (ch m u e b c2 : String) (lim : Nat)
    (msgs : List String) :
    (get_channel ch).2 = "channels:" ++ ch ∧
    (edit_channel ch b).2 = "channels:" ++ ch ∧
    (delete_channel ch).2 = "channels:" ++ ch ∧
    (get_messages_around ch m lim).2 = "channels:" ++ ch ∧
    (get_messages_before ch m lim).2 = "channels:" ++ ch ∧
    (get_messages_after ch m lim).2 = "channels:" ++ ch ∧
    (get_message ch m).2 = "channels:" ++ ch ∧
    (send_message ch c2).2 = "channels:" ++ ch ∧
    (edit_message ch c2).2 = "channels:" ++ ch ∧
    (delete_message ch m).2 = "channels:" ++ ch ∧
    (delete_many_messages ch msgs).2 = "channels:" ++ ch ∧
    (edit_channel_permissions ch).2 = "channels:" ++ ch ∧
    (add_reaction ch m e).2 = "channel:" ++ ch ++ ":emoji" ∧
    (remove_own_reaction ch m e).2 = "channel:" ++ ch ++ ":emoji" ∧
    (remove_user_reaction ch m u e).2 = "channel:" ++ ch ++ ":emoji" ∧
    (get_reactions ch m e).2 = "channel:" ++ ch ++ ":emoji" ∧
    (remove_all_reactions ch m).2 = "channel:" ++ ch ++ ":emoji" ∧
    (remove_all_emoji_reactions ch m e).2 = "channel:" ++ ch ++ ":emoji" ∧
    ("channels:" ++ ch ≠ "channel:" ++ ch ++ ":emoji") := by
  refine ⟨rfl, rfl, rfl, rfl, rfl, rfl, rfl, rfl, rfl, rfl, rfl, rfl, rfl,
    rfl, rfl, rfl, rfl, rfl, ?_⟩
  intro hne
  have hl := congrArg String.length hne
  have h1 : ("channels:" : String).length = 9 := rfl
  have h2 : ("channel:" : String).length = 8 := rfl
  have h3 : ((":emoji" : String)).length = 6 := rfl
  simp [String.length_append, h1, h2, h3] at hl
  omega

/-- The receive loop over a concatenation runs the first part and, when it
did not error out, continues with the second. -/
theorem runEvents_append (ivl : Nat → Nat) (c : Client) (t : Trace)
    (l1 l2 : List Event) :
    runEvents ivl c t (l1 ++ l2) =
      match runEvents ivl c t l1 with
      | .error e => .error e
      | .ok (c', t') => runEvents ivl c' t' l2 := by
  induction l1 generalizing c t with
  | nil => rfl
  | cons e l1 ih =>
    cases hstep : stepEvent ivl c t e with
    | error err => simp only [List.cons_append, runEvents, hstep]
    | ok p =>
      obtain ⟨c1, t1⟩ := p
      simp only [List.cons_append, runEvents, hstep]
      exact ih c1 t1

/-- A non-close step succeeds and leaves the token, the config, the gateway,
the command log and the heartbeat log untouched; if the event is not
Invalid-Session(true), a cleared resumable flag stays cleared. -/
theorem step_quiet (ivl : Nat → Nat) (c : Client) (t : Trace) (e : Event)
    (hcl : e.isClose = false) :
    ∃ c' t', stepEvent ivl c t e = Except.ok (c', t') ∧
      c'.token = c.token ∧ c'.config = c.config ∧ c'.gateway = c.gateway ∧
      (e ≠ Event.invalidSession true → c.session.is_resumable = false →
        c'.session.is_resumable = false) ∧
      t'.sent = t.sent ∧ t'.hbSpawned = t.hbSpawned := by
  cases e with
  | dispatch d =>
    cases d <;> exact ⟨_, _, rfl, rfl, rfl, rfl, fun _ h => h, rfl, rfl⟩
  | reconnect => exact ⟨_, _, rfl, rfl, rfl, rfl, fun _ h => h, rfl, rfl⟩
  | invalidSession r =>
    refine ⟨_, _, rfl, rfl, rfl, rfl, fun hne _ => ?_, rfl, rfl⟩
    cases r with
    | true => exact absurd rfl hne
    | false => rfl
  | heartbeatACK => exact ⟨_, _, rfl, rfl, rfl, rfl, fun _ h => h, rfl, rfl⟩
  | close err => simp [Event.isClose] at hcl
  | unhandled k => exact ⟨_, _, rfl, rfl, rfl, rfl, fun _ h => h, rfl, rfl⟩

/-- A run with no close event and no Invalid-Session(true) event succeeds,
sends nothing, spawns nothing, keeps token, config and gateway, and keeps
the resumable flag cleared. -/
theorem run_quiet (ivl : Nat → Nat) :
    ∀ (es : List Event) (c : Client) (t : Trace),
    (∀ e ∈ es, e.isClose = false ∧ e ≠ Event.invalidSession true) →
    c.session.is_resumable = false →
    ∃ c' t', runEvents ivl c t es = Except.ok (c', t') ∧
      c'.token = c.token ∧ c'.config = c.config ∧ c'.gateway = c.gateway ∧
      c'.session.is_resumable = false ∧
      t'.sent = t.sent ∧ t'.hbSpawned = t.hbSpawned := by
  intro es
  induction es with
  | nil => exact fun c t _ hr => ⟨c, t, rfl, rfl, rfl, rfl, hr, rfl, rfl⟩
  | cons e es ih =>
    intro c t hq hr
    obtain ⟨h1, h2⟩ := hq e (by simp)
    obtain ⟨c1, t1, hstep, htok, hcfg, hgw, hres, hsent, hhb⟩ :=
      step_quiet ivl c t e h1
    obtain ⟨c', t', hrun, htok', hcfg', hgw', hres', hsent', hhb'⟩ :=
      ih c1 t1 (fun x hx => hq x (by simp [hx])) (hres h2 hr)
    refine ⟨c', t', ?_, htok'.trans htok, hcfg'.trans hcfg, hgw'.trans hgw,
      hres', hsent'.trans hsent, hhb'.trans hhb⟩
    simp [runEvents, hstep, hrun]

/-- Claim C1: after an Invalid-Session(false) event, with no later
Invalid-Session(true), the reconnect protocol run by the next
Connection-Closed sends Identify on the new connection, never Resume: the
coordinator stores the flag in the session and reconnect() consults it to
choose the clean-connect branch. -/
theorem invalid_session_reconnect_sends_identify (ivl : Nat → Nat)
    (c : Client) (t : Trace) (es : List Event) (err : DiscordError)
    (hq : ∀ e ∈ es, e.isClose = false ∧ e ≠ Event.invalidSession true)
    (herr : err ≠ DiscordError.authenticationFailed) :
    ∃ c' t', runEvents ivl c t
        (Event.invalidSession false :: (es ++ [Event.close err])) =
        Except.ok (c', t') ∧
      t'.sent = Command.identify c.token c.config.gateway_large_treshold
        c.config.gateway_guilds_subscriptions
        (c.config.gateway_shard_id, c.config.gateway_num_shards) :: t.sent ∧
      (∀ tok sid ls, t'.sent.head? ≠ some (Command.resume tok sid ls)) := by
  have h0 : stepEvent ivl c t (Event.invalidSession false) =
      Except.ok ({ c with session := c.session.set_resumable false }, t) := rfl
  obtain ⟨c1, t1, hrun, htok, hcfg, hgw, hres, hsent, hhb⟩ :=
    run_quiet ivl es { c with session := c.session.set_resumable false } t hq rfl
  have hstep : stepEvent ivl c1 t1 (Event.close err) =
      Except.ok (reconnect ivl c1 t1) := by
    cases err with
    | authenticationFailed => exact absurd rfl herr
    | connectFailed => rfl
    | transportError => rfl
    | rateLimited => rfl
    | decodeError => rfl
  have hsent2 : (reconnect ivl c1 t1).2.sent =
      Command.identify c1.token c1.config.gateway_large_treshold
        c1.config.gateway_guilds_subscriptions
        (c1.config.gateway_shard_id, c1.config.gateway_num_shards) ::
        t1.sent := by
    simp [reconnect, GatewayConnection.close_channels,
      GatewayConnection.reconnect_gw, clean_connect, spawn_heartbeater, hres]
  have hfirst : runEvents ivl c t (Event.invalidSession false :: es) =
      Except.ok (c1, t1) := by
    simp only [runEvents, h0]
    exact hrun
  refine ⟨(reconnect ivl c1 t1).1, (reconnect ivl c1 t1).2, ?_, ?_, ?_⟩
  · show runEvents ivl c t
        ((Event.invalidSession false :: es) ++ [Event.close err]) = _
    rw [runEvents_append, hfirst]
    show runEvents ivl c1 t1 [Event.close err] = _
    simp only [runEvents, hstep]
  · rw [hsent2, htok, hcfg, hsent]
  · intro tok sid ls
    rw [hsent2]
    simp

/-- Witness for C1: a concrete Invalid-Session(false), one quiet event, then
a recoverable close, starting from a fresh client. -/
theorem invalid_session_reconnect_sends_identify_witness :
    (∀ e ∈ [Event.heartbeatACK],
      e.isClose = false ∧ e ≠ Event.invalidSession true) ∧
    DiscordError.transportError ≠ DiscordError.authenticationFailed ∧
    ∃ c' t', runEvents (fun _ => 41250) (Client.new "x") Trace.empty
        (Event.invalidSession false ::
          ([Event.heartbeatACK] ++ [Event.close DiscordError.transportError])) =
        Except.ok (c', t') ∧
      t'.sent = Command.identify (Client.new "x").token
        (Client.new "x").config.gateway_large_treshold
        (Client.new "x").config.gateway_guilds_subscriptions
        ((Client.new "x").config.gateway_shard_id,
          (Client.new "x").config.gateway_num_shards) :: Trace.empty.sent ∧
      (∀ tok sid ls, t'.sent.head? ≠ some (Command.resume tok sid ls)) :=
  ⟨by decide, by decide,
    invalid_session_reconnect_sends_identify (fun _ => 41250) (Client.new "x")
      Trace.empty [Event.heartbeatACK] DiscordError.transportError
      (by decide) (by decide)⟩

/-- Claim C5: the resumable flag starts true at Session creation, an event
step clears it only on Invalid-Session(false), and a reconnect taking the
non-resumable (Identify) branch sets it back to true. -/
theorem resumable_flag_lifecycle (ivl : Nat → Nat) (tok : String)
    (c c' : Client) (t t' : Trace) (e : Event) :
    (Session.new tok).is_resumable = true ∧
    (e ≠ Event.invalidSession false →
      stepEvent ivl c t e = Except.ok (c', t') →
      c.session.is_resumable = true → c'.session.is_resumable = true) ∧
    (c.session.is_resumable = false →
      (reconnect ivl c t).1.session.is_resumable = true) := by
  refine ⟨rfl, ?_, ?_⟩
  · intro hne hstep hres
    cases e with
    | dispatch d =>
      cases d <;> simp only [stepEvent] at hstep <;>
        obtain ⟨rfl, rfl⟩ := Prod.mk.injEq .. ▸ Except.ok.inj hstep <;>
        exact hres
    | reconnect =>
      obtain ⟨rfl, rfl⟩ := Prod.mk.injEq .. ▸ Except.ok.inj hstep
      exact hres
    | invalidSession r =>
      obtain ⟨rfl, rfl⟩ := Prod.mk.injEq .. ▸ Except.ok.inj hstep
      cases r with
      | true => rfl
      | false => exact absurd rfl hne
    | heartbeatACK =>
      obtain ⟨rfl, rfl⟩ := Prod.mk.injEq .. ▸ Except.ok.inj hstep
      exact hres
    | close err =>
      cases err with
      | authenticationFailed => simp [stepEvent] at hstep
      | connectFailed =>
        have hre : reconnect ivl c t = (c', t') := Except.ok.inj hstep
        have hc : (reconnect ivl c t).1 = c' := by rw [hre]
        rw [← hc]
        simp [reconnect, GatewayConnection.close_channels,
          GatewayConnection.reconnect_gw, hres]
      | transportError =>
        have hre : reconnect ivl c t = (c', t') := Except.ok.inj hstep
        have hc : (reconnect ivl c t).1 = c' := by rw [hre]
        rw [← hc]
        simp [reconnect, GatewayConnection.close_channels,
          GatewayConnection.reconnect_gw, hres]
      | rateLimited =>
        have hre : reconnect ivl c t = (c', t') := Except.ok.inj hstep
        have hc : (reconnect ivl c t).1 = c' := by rw [hre]
        rw [← hc]
        simp [reconnect, GatewayConnection.close_channels,
          GatewayConnection.reconnect_gw, hres]
      | decodeError =>
        have hre : reconnect ivl c t = (c', t') := Except.ok.inj hstep
        have hc : (reconnect ivl c t).1 = c' := by rw [hre]
        rw [← hc]
        simp [reconnect, GatewayConnection.close_channels,
          GatewayConnection.reconnect_gw, hres]
    | unhandled k =>
      obtain ⟨rfl, rfl⟩ := Prod.mk.injEq .. ▸ Except.ok.inj hstep
      exact hres
  · intro hr
    simp [reconnect, GatewayConnection.close_channels,
      GatewayConnection.reconnect_gw, clean_connect, spawn_heartbeater,
      Session.set_resumable, hr]

/-- Witness for C5: the flag survives a heartbeat acknowledgement and the
Identify branch of a concrete reconnect restores it. -/
theorem resumable_flag_lifecycle_witness :
    (Session.new "x").is_resumable = true ∧
    ((Client.new "x").session.is_resumable = true) ∧
    ({ Client.new "x" with
        session := (Client.new "x").session.set_resumable false }.session.is_resumable
      = false) ∧
    ((reconnect (fun _ => 41250)
        { Client.new "x" with
          session := (Client.new "x").session.set_resumable false }
        Trace.empty).1.session.is_resumable = true) :=
  ⟨(resumable_flag_lifecycle (fun _ => 41250) "x" (Client.new "x")
      (Client.new "x") Trace.empty Trace.empty Event.heartbeatACK).1,
    (resumable_flag_lifecycle (fun _ => 41250) "x" (Client.new "x")
      (Client.new "x") Trace.empty Trace.empty Event.heartbeatACK).2.1
      (by decide) rfl (by decide),
    by decide,
    (resumable_flag_lifecycle (fun _ => 41250) "x"
      { Client.new "x" with
        session := (Client.new "x").session.set_resumable false }
      (Client.new "x") Trace.empty Trace.empty Event.heartbeatACK).2.2
      (by decide)⟩

/-- The reconnect protocol re-establishes the heartbeat invariant: it closes
the old generation's channels (terminating its heartbeater) before the new
generation exists, and both the Identify and the Resume branch spawn exactly
one heartbeater on the new generation. -/
theorem reconnect_hbInv (ivl : Nat → Nat) (c : Client) (t : Trace)
    (hinv : hbInv ivl c t) :
    hbInv ivl (reconnect ivl c t).1 (reconnect ivl c t).2 := by
  obtain ⟨hopen, hone, hle⟩ := hinv
  have hfil : t.hbSpawned.filter (fun p => p.1 == c.gateway.gen + 1) = [] := by
    rw [List.filter_eq_nil_iff]
    intro p hp
    have := hle p hp
    simp only [beq_iff_eq]
    omega
  by_cases hr : c.session.is_resumable = true
  · refine ⟨?_, ?_, ?_⟩
    · simp [reconnect, GatewayConnection.close_channels,
        GatewayConnection.reconnect_gw, resume_connect, spawn_heartbeater, hr]
    · simp [reconnect, GatewayConnection.close_channels,
        GatewayConnection.reconnect_gw, resume_connect, spawn_heartbeater,
        hr, List.filter_cons, hfil]
    · simp [reconnect, GatewayConnection.close_channels,
        GatewayConnection.reconnect_gw, resume_connect, spawn_heartbeater, hr]
      intro a b hab
      exact Nat.le_succ_of_le (hle (a, b) hab)
  · refine ⟨?_, ?_, ?_⟩
    · simp [reconnect, GatewayConnection.close_channels,
        GatewayConnection.reconnect_gw, clean_connect, spawn_heartbeater, hr]
    · simp [reconnect, GatewayConnection.close_channels,
        GatewayConnection.reconnect_gw, clean_connect, spawn_heartbeater,
        hr, List.filter_cons, hfil]
    · simp [reconnect, GatewayConnection.close_channels,
        GatewayConnection.reconnect_gw, clean_connect, spawn_heartbeater, hr]
      intro a b hab
      exact Nat.le_succ_of_le (hle (a, b) hab)

/-- Any successful step of the receive loop preserves the heartbeat
invariant. -/
theorem step_hbInv (ivl : Nat → Nat) (c : Client) (t : Trace) (e : Event)
    (c' : Client) (t' : Trace) (hinv : hbInv ivl c t)
    (hstep : stepEvent ivl c t e = Except.ok (c', t')) : hbInv ivl c' t' := by
  cases e with
  | dispatch d =>
    cases d <;> obtain ⟨rfl, rfl⟩ := Prod.mk.injEq .. ▸ Except.ok.inj hstep <;>
      exact hinv
  | reconnect =>
    obtain ⟨rfl, rfl⟩ := Prod.mk.injEq .. ▸ Except.ok.inj hstep
    exact hinv
  | invalidSession r =>
    obtain ⟨rfl, rfl⟩ := Prod.mk.injEq .. ▸ Except.ok.inj hstep
    exact hinv
  | heartbeatACK =>
    obtain ⟨rfl, rfl⟩ := Prod.mk.injEq .. ▸ Except.ok.inj hstep
    exact hinv
  | close err =>
    cases err with
    | authenticationFailed => simp [stepEvent] at hstep
    | connectFailed =>
      have hre : reconnect ivl c t = (c', t') := Except.ok.inj hstep
      have hc : (reconnect ivl c t).1 = c' := by rw [hre]
      have ht : (reconnect ivl c t).2 = t' := by rw [hre]
      rw [← hc, ← ht]
      exact reconnect_hbInv ivl c t hinv
    | transportError =>
      have hre : reconnect ivl c t = (c', t') := Except.ok.inj hstep
      have hc : (reconnect ivl c t).1 = c' := by rw [hre]
      have ht : (reconnect ivl c t).2 = t' := by rw [hre]
      rw [← hc, ← ht]
      exact reconnect_hbInv ivl c t hinv
    | rateLimited =>
      have hre : reconnect ivl c t = (c', t') := Except.ok.inj hstep
      have hc : (reconnect ivl c t).1 = c' := by rw [hre]
      have ht : (reconnect ivl c t).2 = t' := by rw [hre]
      rw [← hc, ← ht]
      exact reconnect_hbInv ivl c t hinv
    | decodeError =>
      have hre : reconnect ivl c t = (c', t') := Except.ok.inj hstep
      have hc : (reconnect ivl c t).1 = c' := by rw [hre]
      have ht : (reconnect ivl c t).2 = t' := by rw [hre]
      rw [← hc, ← ht]
      exact reconnect_hbInv ivl c t hinv
  | unhandled k =>
    obtain ⟨rfl, rfl⟩ := Prod.mk.injEq .. ▸ Except.ok.inj hstep
    exact hinv

/-- Any successful run of the receive loop preserves the heartbeat
invariant. -/
theorem run_hbInv (ivl : Nat → Nat) :
    ∀ (es : List Event) (c : Client) (t : Trace) (c' : Client) (t' : Trace),
    hbInv ivl c t → runEvents ivl c t es = Except.ok (c', t') →
    hbInv ivl c' t' := by
  intro es
  induction es with
  | nil =>
    intro c t c' t' hinv hrun
    obtain ⟨rfl, rfl⟩ := Prod.mk.injEq .. ▸ Except.ok.inj hrun
    exact hinv
  | cons e es ih =>
    intro c t c' t' hinv hrun
    cases hstep : stepEvent ivl c t e with
    | error err => simp [runEvents, hstep] at hrun
    | ok p =>
      obtain ⟨c1, t1⟩ := p
      simp only [runEvents, hstep] at hrun
      exact ih c1 t1 c' t' (step_hbInv ivl c t e c1 t1 hinv hstep) hrun

/-- The heartbeat invariant holds right after the initial clean connect of
`Client::start`. -/
theorem start_hbInv (ivl : Nat → Nat) (tok : String) :
    hbInv ivl (Client.new tok)
      (clean_connect ivl (Client.new tok) Trace.empty) := by
  refine ⟨rfl, ?_, ?_⟩
  · simp [clean_connect, spawn_heartbeater, Client.new, GatewayConnection.new,
      Trace.empty, List.filter]
  · intro p hp
    simp [clean_connect, spawn_heartbeater, Client.new, GatewayConnection.new,
      Trace.empty] at hp
    simp [hp, Client.new, GatewayConnection.new]

/-- Claim C7: each completed Identify (clean_connect) and Resume
(resume_connect) is followed by spawning exactly one heartbeat task bound to
the current generation's interval and channel, and every successful run of
`Client::start` ends with exactly one active heartbeat task, bound to the
live connection — the old generation's task having exited when its channels
were closed by the reconnect protocol. -/
theorem one_heartbeat_per_connection (ivl : Nat → Nat) (tok : String)
    (es : List Event) (c' : Client) (t' : Trace)
    (h : Client.start ivl (Client.new tok) es = Except.ok (c', t')) :
    (∀ (cl : Client) (tr : Trace),
      clean_connect ivl cl tr = { tr with
        sent := Command.identify cl.token cl.config.gateway_large_treshold
          cl.config.gateway_guilds_subscriptions
          (cl.config.gateway_shard_id, cl.config.gateway_num_shards) :: tr.sent,
        hbSpawned := (cl.gateway.gen, ivl cl.gateway.gen) :: tr.hbSpawned }) ∧
    (∀ (cl : Client) (tr : Trace) (ls : Option Nat),
      resume_connect ivl cl tr ls = { tr with
        sent := Command.resume cl.token cl.session.id ls :: tr.sent,
        hbSpawned := (cl.gateway.gen, ivl cl.gateway.gen) :: tr.hbSpawned }) ∧
    activeHeartbeats c' t' = [(c'.gateway.gen, ivl c'.gateway.gen)] := by
  refine ⟨fun cl tr => rfl, fun cl tr ls => rfl, ?_⟩
  have hinv := run_hbInv ivl es (Client.new tok)
    (clean_connect ivl (Client.new tok) Trace.empty) c' t'
    (start_hbInv ivl tok) h
  obtain ⟨hopen, hone, _⟩ := hinv
  simp [activeHeartbeats, hopen, hone]

/-- Witness for C7: a run with one recoverable close (hence one full
reconnect) ends with exactly one active heartbeat task, on generation 1. -/
theorem one_heartbeat_per_connection_witness :
    ∃ c' t', Client.start (fun g => 41250 + g) (Client.new "x")
        [Event.close DiscordError.transportError] = Except.ok (c', t') ∧
      activeHeartbeats c' t' =
        [(c'.gateway.gen, (fun g => 41250 + g) c'.gateway.gen)] := by
  refine ⟨_, _, rfl, ?_⟩
  exact (one_heartbeat_per_connection (fun g => 41250 + g) "x"
    [Event.close DiscordError.transportError] _ _ rfl).2.2

/-- Counterexample for claim C4: the coordinator does not update any
sequence field of SessionState when forwarding a Dispatch event — the
`Session` structure of session.rs has no last_sequence field at all, and
processing a concrete non-Ready Dispatch forwards it to the router while
leaving the entire client state, the session included, unchanged. -/
theorem dispatch_leaves_session_unchanged :
    stepEvent (fun _ => 41250) (Client.new "tok") Trace.empty
        (Event.dispatch (DispatchEvent.other "MESSAGE_CREATE")) =
      Except.ok (Client.new "tok",
        { Trace.empty with
          routed := [("", DispatchEvent.other "MESSAGE_CREATE")] }) := rfl

/-- In a strictly increasing chain the last element bounds every element. -/
theorem chain_le_getLast :
    ∀ (l : List Nat) (h : l ≠ []), l.Chain' (· < ·) →
      ∀ x ∈ l, x ≤ l.getLast h := by
  intro l
  induction l with
  | nil => intro h; exact absurd rfl h
  | cons a l ih =>
    intro h hc x hx
    cases l with
    | nil =>
      simp at hx
      simp [hx, List.getLast]
    | cons b m =>
      have hsplit := List.chain'_cons.mp hc
      have hlast : (a :: b :: m).getLast h = (b :: m).getLast (by simp) := rfl
      rcases List.mem_cons.mp hx with rfl | hx2
      · rw [hlast]
        have hb : b ≤ (b :: m).getLast (by simp) :=
          ih (by simp) hsplit.2 b (by simp)
        exact le_of_lt (lt_of_lt_of_le hsplit.1 hb)
      · rw [hlast]
        exact ih (by simp) hsplit.2 x hx2

/-- Folding the gateway's sequence tracking over a nonempty run of dispatch
sequence numbers stores the last one observed. -/
theorem observe_all_lastSeq :
    ∀ (seqs : List Nat) (g : GatewayConnection) (h : seqs ≠ []),
    (g.observe_all seqs).lastSeq = some (seqs.getLast h) := by
  intro seqs
  induction seqs with
  | nil => intro g h; exact absurd rfl h
  | cons a l ih =>
    intro g h
    cases l with
    | nil => rfl
    | cons b m =>
      have hstep : GatewayConnection.observe_all g (a :: b :: m) =
          GatewayConnection.observe_all (g.observe_seq a) (b :: m) := rfl
      rw [hstep, ih (g.observe_seq a) (by simp)]
      rfl

/-- Claim C4 as amended: the last observed sequence number is tracked by the
gateway connection (modelled from the spec), not by a SessionState field,
and for every nonempty strictly increasing run of Dispatch sequence numbers
the tracked value after processing is the maximum sequence number seen. -/
theorem gateway_tracks_max_sequence (g : GatewayConnection) (seqs : List Nat)
    (hchain : seqs.Chain' (· < ·)) (hne : seqs ≠ []) :
    ∃ m, (g.observe_all seqs).lastSeq = some m ∧ m ∈ seqs ∧
      ∀ x ∈ seqs, x ≤ m :=
  ⟨seqs.getLast hne, observe_all_lastSeq seqs g hne, List.getLast_mem hne,
    chain_le_getLast seqs hne hchain⟩

/-- Witness for the amended C4 on the concrete run 3, 5, 9. -/
theorem gateway_tracks_max_sequence_witness :
    List.Chain' (· < ·) [3, 5, 9] ∧ ([3, 5, 9] : List Nat) ≠ [] ∧
    ∃ m, (GatewayConnection.new.observe_all [3, 5, 9]).lastSeq = some m ∧
      m ∈ [3, 5, 9] ∧ ∀ x ∈ [3, 5, 9], x ≤ m :=
  ⟨by simp [List.chain'_cons], by decide,
    gateway_tracks_max_sequence GatewayConnection.new [3, 5, 9]
      (by simp [List.chain'_cons]) (by decide)⟩

end Panda
